import Mathlib

/-!
Verification of the cache/history bookkeeping core of the repository's two
Streamlit applications (`src/zcyq.py`, the richer variant, and
`src/resume_analyzer_agent2.py`, the simpler variant).

The shallow embedding below translates the Python functions definitionally.
External collaborators (the MD5 hex digest, the JSON load/dump round trip,
UTF-8 byte decoding, the remote chat-completion call, the traceback text and
the wall clock) are passed in as explicit parameters, exactly at the points
where the Python code calls out to them.  Python strings are modelled as Lean
`String`s; Python slicing `s[:n]` and `len` are character-based, matching
`pyTake` and `String.length`.  `time.time()` values are modelled as `Int`.
-/

/-- Python `s[:n]`: the first `n` characters of `s` (character-based slice). -/
def pyTake (s : String) (n : Nat) : String :=
  ⟨s.data.take n⟩

/-- Python `s.strip()`: drop leading and trailing whitespace characters. -/
def pyStrip (s : String) : String :=
  ⟨((s.data.dropWhile Char.isWhitespace).reverse.dropWhile Char.isWhitespace).reverse⟩

/-- Python `s.endswith(suf)`. -/
def pyEndswith (s suf : String) : Bool :=
  List.isSuffixOf suf.data s.data

/-- Python `s.startswith(pre)`. -/
def pyStartswith (s pre : String) : Bool :=
  s.data.take pre.data.length == pre.data

/-- Python truthiness of an optional string (`None` and `""` are falsy). -/
def pyTruthyOptStr : Option String → Bool
  | none => false
  | some s => s != ""

/-- Python `f"{x}"` for an optional string (`None` prints as `"None"`). -/
def pyStrOpt : Option String → String
  | none => "None"
  | some s => s

instance {α β : Type} [DecidableEq α] [DecidableEq β] : DecidableEq (Except α β) := fun x y =>
  match x, y with
  | .ok a, .ok b =>
    if h : a = b then isTrue (by rw [h]) else isFalse (fun he => h (Except.ok.inj he))
  | .error a, .error b =>
    if h : a = b then isTrue (by rw [h]) else isFalse (fun he => h (Except.error.inj he))
  | .ok _, .error _ => isFalse (fun he => nomatch he)
  | .error _, .ok _ => isFalse (fun he => nomatch he)

/-- An uploaded file as the extractors see it: the declared MIME type, the
file name, and the two ways the code decodes its raw bytes —
`bytes.decode("utf-8")` (which can raise) and
`bytes.decode("utf-8", errors="replace")` (which cannot). -/
structure FileData where
  ftype : String
  name : String
  decodeUtf8 : Except String String
  decodeReplace : String
deriving DecidableEq

namespace Zcyq

/-- `MAX_HISTORY_RECORDS = 10` from `src/zcyq.py`. -/
def MAX_HISTORY_RECORDS : Nat := 10

/-- `CACHE_EXPIRY_TIME = 3600` (seconds) from `src/zcyq.py`. -/
def CACHE_EXPIRY_TIME : Int := 3600

/-- One entry of `st.session_state.cache`: `{"result": ..., "timestamp": ...}`. -/
structure CacheEntry where
  result : String
  timestamp : Int
deriving DecidableEq

/-- The session cache `st.session_state.cache`, a Python dict keyed by the
hex cache key, modelled as an association list without duplicate keys. -/
abbrev Cache := List (String × CacheEntry)

/-- Python dict assignment `d[k] = v`: replace the value in place if the key
is present, append a new binding otherwise. -/
def dictInsert (cache : Cache) (k : String) (v : CacheEntry) : Cache :=
  match cache with
  | [] => [(k, v)]
  | (k', v') :: rest =>
    if k' = k then (k, v) :: rest else (k', v') :: dictInsert rest k v

/-- `get_cache_key(content, target_position)` from `src/zcyq.py` lines 68-73:
the hash of `f"{content[:1000]}:{target_position}"`.  The MD5 hex digest of
the UTF-8 encoding is the external parameter `md5hex`. -/
def get_cache_key (md5hex : String → String) (content target_position : String) : String :=
  md5hex (pyTake content 1000 ++ ":" ++ target_position)

/-- `check_cache(cache_key)` from `src/zcyq.py` lines 76-84, with the session
cache and the current clock made explicit. -/
def check_cache (cache : Cache) (now : Int) (cache_key : String) : Option String :=
  match cache.lookup cache_key with
  | some cache_data =>
    if now - cache_data.timestamp < CACHE_EXPIRY_TIME then some cache_data.result else none
  | none => none

/-- `update_cache(cache_key, result)` from `src/zcyq.py` lines 87-94. -/
def update_cache (cache : Cache) (now : Int) (cache_key result : String) : Cache :=
  dictInsert cache cache_key ⟨result, now⟩

/-- One record of `st.session_state.analysis_history`. -/
structure HistoryItem where
  timestamp : String
  target_position : String
  content_preview : String
  result : String
deriving DecidableEq

/-- The `history_item` dict built in `update_history` (`src/zcyq.py`
lines 101-106); `ts` is the formatted `datetime.now()` string. -/
def mkHistoryItem (ts content target_position result : String) : HistoryItem :=
  { timestamp := ts
    target_position := target_position
    content_preview := if content.length > 50 then pyTake content 50 ++ "..." else content
    result := result }

/-- `update_history(content, target_position, result)` from `src/zcyq.py`
lines 97-113: prepend the new record, then truncate to the first
`MAX_HISTORY_RECORDS` records if the cap is exceeded. -/
def update_history (ts content target_position result : String)
    (history : List HistoryItem) : List HistoryItem :=
  let h := mkHistoryItem ts content target_position result :: history
  if h.length > MAX_HISTORY_RECORDS then h.take MAX_HISTORY_RECORDS else h

/-- The configuration-error sentinel string returned on a missing/blank key. -/
def sentinelConfig : String := "请先配置OpenAI API密钥"

/-- The prefix of every remote-failure diagnostic string. -/
def failureSentinel : String := "AI分析失败"

/-- The Python value returned by `analyze_content_with_ai`: either the bare
configuration-error string (line 121 returns a plain string, not a tuple) or
the `(result, from_cache)` pair returned everywhere else. -/
inductive AnalyzeReturn where
  | bare (s : String)
  | pair (result : String) (from_cache : Bool)
deriving DecidableEq

/-- The observable outcome of one call to `analyze_content_with_ai`: its
return value, the session cache after the call, and whether the remote
completion endpoint was invoked. -/
structure AnalyzeOutcome where
  ret : AnalyzeReturn
  cache : Cache
  remote_called : Bool
deriving DecidableEq

/-- `analyze_content_with_ai(content, target_position, api_key)` from
`src/zcyq.py` lines 116-177.  `api` is the remote completion collaborator
(`.ok` carries `response.choices[0].message.content`, `.error` the message of
the raised exception); `tb` is `traceback.format_exc()`. -/
def analyze_content_with_ai (md5hex : String → String) (api : Except String String)
    (tb : String) (now : Int) (content target_position api_key : String)
    (cache : Cache) : AnalyzeOutcome :=
  if api_key = "" ∨ pyStrip api_key = "" then
    { ret := .bare sentinelConfig, cache := cache, remote_called := false }
  else
    let cache_key := get_cache_key md5hex content target_position
    let cached_result := check_cache cache now cache_key
    if pyTruthyOptStr cached_result then
      { ret := .pair (cached_result.getD "") true, cache := cache, remote_called := false }
    else
      match api with
      | .ok result =>
        { ret := .pair result false
          cache := update_cache cache now cache_key result
          remote_called := true }
      | .error e =>
        { ret := .pair ("AI分析失败: " ++ e ++ "\n\n详细错误:\n" ++ tb) false
          cache := cache
          remote_called := true }

/-- `extract_file_content(uploaded_file)` from `src/zcyq.py` lines 36-65.
`jsonRoundtrip` is `json.dumps(json.loads(s), ensure_ascii=False, indent=2)`
as one collaborator: `.error` carries `str(e)` of the parse exception, `.ok`
the pretty-printed re-serialization.  The whole dispatch is wrapped in
`try/except`, whose handler returns the error message with label `"错误"`. -/
def extract_file_content (jsonRoundtrip : String → Except String String)
    (uploaded_file : Option FileData) : Option String × Option String :=
  match uploaded_file with
  | none => (none, none)
  | some f =>
    if f.ftype = "text/plain" ∨ pyEndswith f.name ".txt" then
      match f.decodeUtf8 with
      | .ok s => (some s, some "文本文件")
      | .error e => (some ("文件解析错误: " ++ e), some "错误")
    else if f.ftype = "application/json" ∨ pyEndswith f.name ".json" then
      match f.decodeUtf8 with
      | .ok s =>
        match jsonRoundtrip s with
        | .ok pretty => (some pretty, some "JSON文件")
        | .error e => (some ("文件解析错误: " ++ e), some "错误")
      | .error e => (some ("文件解析错误: " ++ e), some "错误")
    else if f.ftype = "application/vnd.ms-excel" ∨
        f.ftype = "application/vnd.openxmlformats-officedocument.spreadsheetml.sheet" ∨
        pyEndswith f.name ".csv" then
      (some "表格文件内容（需使用pandas进行详细解析）", some "表格文件")
    else
      (some f.decodeReplace, some "未知格式（已尝试文本解析）")

/-- The mutable session state touched by `handle_analyze_click`. -/
structure SessionState where
  analysis_result : Option String
  target_position : Option String
  last_analysis_content : Option String
  analysis_history : List HistoryItem
  cache : Cache
deriving DecidableEq

/-- The observable outcome of one call to `handle_analyze_click`: the session
state afterwards, the `st.warning` / `st.error` / `st.success` messages shown,
whether the remote endpoint was invoked, and the local `content` variable the
handler selected for analysis. -/
structure HandleOutcome where
  state : SessionState
  warning : Option String
  err : Option String
  success_msg : Option String
  remote_called : Bool
  content_used : Option String
deriving DecidableEq

/-- `handle_analyze_click(uploaded_file, resume_test, target_position,
api_key)` from `src/zcyq.py` lines 179-225.  The unpacking
`analysis_result, from_cache = analyze_content_with_ai(...)` raises a
`ValueError` when the callee returned the bare 15-character sentinel string
(line 121); that exception is caught at line 223 and surfaced via
`st.error`. -/
def handle_analyze_click (md5hex : String → String)
    (jsonRoundtrip : String → Except String String) (api : Except String String)
    (tb : String) (now : Int) (ts : String)
    (uploaded_file : Option FileData) (resume_test target_position api_key : String)
    (st : SessionState) : HandleOutcome :=
  let sel : Option String × String :=
    match uploaded_file with
    | some _ =>
      let ex := extract_file_content jsonRoundtrip uploaded_file
      (ex.1, "上传的" ++ pyStrOpt ex.2)
    | none =>
      if resume_test != "" then (some resume_test, "输入的内容") else (none, "")
  let content := sel.1
  if !pyTruthyOptStr content then
    { state := st, warning := some "请输入类别内容或上传文件", err := none
      success_msg := none, remote_called := false, content_used := content }
  else
    let c := content.getD ""
    if (pyStrip c).length < 10 then
      { state := st, warning := some "内容过短，请提供足够的信息进行分析", err := none
        success_msg := none, remote_called := false, content_used := content }
    else
      let a := analyze_content_with_ai md5hex api tb now c target_position api_key st.cache
      let st1 : SessionState := { st with cache := a.cache }
      match a.ret with
      | .bare _ =>
        { state := st1, warning := none
          err := some "处理分析请求时出错: too many values to unpack (expected 2)"
          success_msg := none, remote_called := a.remote_called, content_used := content }
      | .pair analysis_result from_cache =>
        let st2 : SessionState := { st1 with
          analysis_result := some analysis_result
          target_position := some target_position
          last_analysis_content := some c }
        let st3 : SessionState :=
          if !from_cache && !pyStartswith analysis_result sentinelConfig
              && !pyStartswith analysis_result failureSentinel then
            { st2 with
              analysis_history := update_history ts c target_position analysis_result
                st2.analysis_history }
          else st2
        { state := st3, warning := none, err := none
          success_msg := some (if from_cache then "分析完成（来自缓存）" else "分析完成")
          remote_called := a.remote_called, content_used := content }

end Zcyq

namespace Agent2

/-- `extract_file_content(uploaded_file)` from
`src/resume_analyzer_agent2.py` lines 11-21.  The `bytes.decode("utf-8")`
call is not guarded, so a decode failure propagates as an exception
(`Except.error`). -/
def extract_file_content (uploaded_file : Option FileData) : Except String (Option String) :=
  match uploaded_file with
  | none => .ok none
  | some f =>
    if f.ftype = "text/plain" then
      match f.decodeUtf8 with
      | .ok s => .ok (some s)
      | .error e => .error e
    else .ok (some "演示模式")

/-- `get_resume_content(uploaded_file, resume_test)` from
`src/resume_analyzer_agent2.py` lines 23-33. -/
def get_resume_content (uploaded_file : Option FileData) (resume_test : String) :
    Except String (Option String) :=
  match uploaded_file with
  | some _ => extract_file_content uploaded_file
  | none =>
    if resume_test != "" then .ok (some resume_test) else .ok none

end Agent2

/-! ## Helper lemmas -/

theorem string_data_append (a b : String) : (a ++ b).data = a.data ++ b.data := rfl

theorem pyStartswith_of_eq_append (s p : String) (t : List Char) (h : s.data = p.data ++ t) :
    pyStartswith s p = true := by
  simp [pyStartswith, h, List.take_left]

theorem pyStartswith_failure_diag (e tb : String) :
    pyStartswith ("AI分析失败: " ++ e ++ "\n\n详细错误:\n" ++ tb) Zcyq.failureSentinel = true := by
  apply pyStartswith_of_eq_append _ _
    ((": ").data ++ (e.data ++ (("\n\n详细错误:\n").data ++ tb.data)))
  simp [Zcyq.failureSentinel, string_data_append, List.append_assoc]

theorem lookup_dictInsert (c : Zcyq.Cache) (k : String) (v : Zcyq.CacheEntry) :
    (Zcyq.dictInsert c k v).lookup k = some v := by
  induction c with
  | nil => simp [Zcyq.dictInsert, List.lookup]
  | cons p rest ih =>
    obtain ⟨k', v'⟩ := p
    by_cases h : k' = k
    · subst h; simp [Zcyq.dictInsert, List.lookup]
    · have h2 : (k == k') = false := by simp [Ne.symm h]
      simp [Zcyq.dictInsert, h, List.lookup, h2, ih]

theorem check_cache_of_lookup (cache : Zcyq.Cache) (now : Int) (k : String)
    (entry : Zcyq.CacheEntry) (hmem : cache.lookup k = some entry)
    (hfresh : now - entry.timestamp < Zcyq.CACHE_EXPIRY_TIME) :
    Zcyq.check_cache cache now k = some entry.result := by
  simp [Zcyq.check_cache, hmem, hfresh]

theorem check_cache_expired (cache : Zcyq.Cache) (now : Int) (k : String)
    (entry : Zcyq.CacheEntry) (hmem : cache.lookup k = some entry)
    (hstale : ¬ now - entry.timestamp < Zcyq.CACHE_EXPIRY_TIME) :
    Zcyq.check_cache cache now k = none := by
  simp [Zcyq.check_cache, hmem, hstale]

theorem analyze_config_error (md5hex : String → String) (api : Except String String)
    (tb : String) (now : Int) (content pos api_key : String) (cache : Zcyq.Cache)
    (hk : api_key = "" ∨ pyStrip api_key = "") :
    Zcyq.analyze_content_with_ai md5hex api tb now content pos api_key cache
      = ⟨.bare Zcyq.sentinelConfig, cache, false⟩ := by
  unfold Zcyq.analyze_content_with_ai
  rw [if_pos hk]

theorem analyze_cache_hit (md5hex : String → String) (api : Except String String)
    (tb : String) (now : Int) (content pos api_key : String) (cache : Zcyq.Cache)
    (entry : Zcyq.CacheEntry)
    (hk1 : ¬ api_key = "") (hk2 : ¬ pyStrip api_key = "")
    (hmem : cache.lookup (Zcyq.get_cache_key md5hex content pos) = some entry)
    (hfresh : now - entry.timestamp < Zcyq.CACHE_EXPIRY_TIME)
    (hres : entry.result ≠ "") :
    Zcyq.analyze_content_with_ai md5hex api tb now content pos api_key cache
      = ⟨.pair entry.result true, cache, false⟩ := by
  have hcc := check_cache_of_lookup cache now (Zcyq.get_cache_key md5hex content pos)
    entry hmem hfresh
  simp [Zcyq.analyze_content_with_ai, hk1, hk2, hcc, pyTruthyOptStr, hres]

theorem analyze_miss_ok (md5hex : String → String) (tb : String) (now : Int)
    (content pos api_key r : String) (cache : Zcyq.Cache)
    (hk1 : ¬ api_key = "") (hk2 : ¬ pyStrip api_key = "")
    (hmiss : pyTruthyOptStr
      (Zcyq.check_cache cache now (Zcyq.get_cache_key md5hex content pos)) = false) :
    Zcyq.analyze_content_with_ai md5hex (.ok r) tb now content pos api_key cache
      = ⟨.pair r false,
          Zcyq.update_cache cache now (Zcyq.get_cache_key md5hex content pos) r, true⟩ := by
  simp [Zcyq.analyze_content_with_ai, hk1, hk2, hmiss]

theorem analyze_miss_err (md5hex : String → String) (tb e : String) (now : Int)
    (content pos api_key : String) (cache : Zcyq.Cache)
    (hk1 : ¬ api_key = "") (hk2 : ¬ pyStrip api_key = "")
    (hmiss : pyTruthyOptStr
      (Zcyq.check_cache cache now (Zcyq.get_cache_key md5hex content pos)) = false) :
    Zcyq.analyze_content_with_ai md5hex (.error e) tb now content pos api_key cache
      = ⟨.pair ("AI分析失败: " ++ e ++ "\n\n详细错误:\n" ++ tb) false, cache, true⟩ := by
  simp [Zcyq.analyze_content_with_ai, hk1, hk2, hmiss]

/-! ## Concrete collaborators used by witnesses -/

/-- Identity stand-in for the MD5 hex digest in concrete instances. -/
def idHash : String → String := fun s => s

/-- A JSON round trip that always fails to parse. -/
def jrFail : String → Except String String :=
  fun _ => .error "Expecting value: line 1 column 1 (char 0)"

/-- A JSON round trip that always parses, returning a tagged pretty print. -/
def jrOk : String → Except String String := fun s => .ok ("PRETTY:" ++ s)

/-- The session state right after `init_session_state`. -/
def emptyState : Zcyq.SessionState :=
  { analysis_result := none, target_position := none, last_analysis_content := none
    analysis_history := [], cache := [] }

/-- A file declared as JSON whose bytes do not parse as JSON. -/
def badJsonFile : FileData :=
  { ftype := "application/json", name := "data.json"
    decodeUtf8 := .ok "not json", decodeReplace := "not json" }

/-! ## Claims -/

/-- Claim C3: for every key, `check_cache` returns the stored result exactly
when `now - stored.timestamp < TTL` (TTL = 3600 s); an entry written by
`update_cache` is returned verbatim on a lookup within TTL seconds, is treated
as absent once TTL seconds have elapsed, and on an expired entry the
orchestrator performs a fresh remote call. -/
theorem claim_C3_cache_read_contract :
    (∀ (cache : Zcyq.Cache) (now : Int) (k : String) (entry : Zcyq.CacheEntry),
      cache.lookup k = some entry →
      (Zcyq.check_cache cache now k = some entry.result ↔
        now - entry.timestamp < Zcyq.CACHE_EXPIRY_TIME))
    ∧ (∀ (cache : Zcyq.Cache) (now₀ now : Int) (k r : String),
      now - now₀ < Zcyq.CACHE_EXPIRY_TIME →
      Zcyq.check_cache (Zcyq.update_cache cache now₀ k r) now k = some r)
    ∧ (∀ (cache : Zcyq.Cache) (now₀ now : Int) (k r : String),
      Zcyq.CACHE_EXPIRY_TIME ≤ now - now₀ →
      Zcyq.check_cache (Zcyq.update_cache cache now₀ k r) now k = none)
    ∧ (∀ (md5hex : String → String) (tb : String) (now : Int)
        (content pos api_key r : String) (cache : Zcyq.Cache) (entry : Zcyq.CacheEntry),
      ¬ api_key = "" → ¬ pyStrip api_key = "" →
      cache.lookup (Zcyq.get_cache_key md5hex content pos) = some entry →
      Zcyq.CACHE_EXPIRY_TIME ≤ now - entry.timestamp →
      (Zcyq.analyze_content_with_ai md5hex (.ok r) tb now content pos api_key
        cache).remote_called = true) := by
  refine ⟨?_, ?_, ?_, ?_⟩
  · intro cache now k entry hmem
    constructor
    · intro h
      by_contra hn
      rw [check_cache_expired cache now k entry hmem hn] at h
      exact Option.noConfusion h
    · intro h
      exact check_cache_of_lookup cache now k entry hmem h
  · intro cache now₀ now k r h
    exact check_cache_of_lookup _ _ _ _ (lookup_dictInsert cache k ⟨r, now₀⟩) h
  · intro cache now₀ now k r h
    exact check_cache_expired _ _ _ _ (lookup_dictInsert cache k ⟨r, now₀⟩) (not_lt.mpr h)
  · intro md5hex tb now content pos api_key r cache entry hk1 hk2 hmem hstale
    have hmiss : pyTruthyOptStr
        (Zcyq.check_cache cache now (Zcyq.get_cache_key md5hex content pos)) = false := by
      rw [check_cache_expired _ _ _ _ hmem (not_lt.mpr hstale)]
      rfl
    rw [analyze_miss_ok md5hex tb now content pos api_key r cache hk1 hk2 hmiss]

theorem claim_C3_witness :
    ([(("k" : String), (⟨"r", 5⟩ : Zcyq.CacheEntry))].lookup "k" = some ⟨"r", 5⟩
      ∧ Zcyq.check_cache [("k", ⟨"r", 5⟩)] 6 "k" = some "r")
    ∧ Zcyq.check_cache (Zcyq.update_cache [] 0 "k" "r") 3599 "k" = some "r"
    ∧ Zcyq.check_cache (Zcyq.update_cache [] 0 "k" "r") 3600 "k" = none
    ∧ (Zcyq.analyze_content_with_ai idHash (.ok "FRESH") "" 4000 "cc" "pp" "sk"
        [("cc:pp", ⟨"old", 0⟩)]).remote_called = true := by
  refine ⟨⟨by decide, ?_⟩, ?_, ?_, ?_⟩
  · exact (claim_C3_cache_read_contract.1 [("k", ⟨"r", 5⟩)] 6 "k" ⟨"r", 5⟩ (by decide)).mpr
      (by decide)
  · exact claim_C3_cache_read_contract.2.1 [] 0 3599 "k" "r" (by decide)
  · exact claim_C3_cache_read_contract.2.2.1 [] 0 3600 "k" "r" (by decide)
  · exact claim_C3_cache_read_contract.2.2.2 idHash "" 4000 "cc" "pp" "sk" "FRESH"
      [("cc:pp", ⟨"old", 0⟩)] ⟨"old", 0⟩ (by decide) (by decide) (by decide) (by decide)

/-- Claim C4: `update_history` never lets the history exceed
`MAX_HISTORY_RECORDS` (10); inserting into a full history of 10 places the new
record at the front, evicts exactly the oldest (last) record, and keeps the
surviving records in their newest-first order. -/
theorem claim_C4_history_cap (ts c pos r : String) (hist : List Zcyq.HistoryItem) :
    (Zcyq.update_history ts c pos r hist).length ≤ Zcyq.MAX_HISTORY_RECORDS
    ∧ (hist.length = 10 →
      Zcyq.update_history ts c pos r hist
        = Zcyq.mkHistoryItem ts c pos r :: hist.dropLast) := by
  constructor
  · unfold Zcyq.update_history
    dsimp only
    split
    · rw [List.length_take]
      exact min_le_left _ _
    · next h =>
      simp only [Zcyq.MAX_HISTORY_RECORDS, not_lt] at h ⊢
      exact h
  · intro h10
    unfold Zcyq.update_history
    dsimp only
    rw [if_pos (by simp [Zcyq.MAX_HISTORY_RECORDS, h10])]
    rw [List.dropLast_eq_take, h10]
    show (Zcyq.mkHistoryItem ts c pos r :: hist).take (9 + 1) = _
    rw [List.take_succ_cons]

theorem claim_C4_witness :
    (List.replicate 10 (Zcyq.mkHistoryItem "t" "c" "p" "r")).length = 10
    ∧ (Zcyq.update_history "t2" "c2" "p2" "r2"
        (List.replicate 10 (Zcyq.mkHistoryItem "t" "c" "p" "r"))).length
        ≤ Zcyq.MAX_HISTORY_RECORDS
    ∧ Zcyq.update_history "t2" "c2" "p2" "r2"
        (List.replicate 10 (Zcyq.mkHistoryItem "t" "c" "p" "r"))
      = Zcyq.mkHistoryItem "t2" "c2" "p2" "r2"
          :: (List.replicate 10 (Zcyq.mkHistoryItem "t" "c" "p" "r")).dropLast :=
  ⟨by decide,
   (claim_C4_history_cap "t2" "c2" "p2" "r2" _).1,
   (claim_C4_history_cap "t2" "c2" "p2" "r2"
     (List.replicate 10 (Zcyq.mkHistoryItem "t" "c" "p" "r"))).2 (by decide)⟩

/-- Modelled from the spec's words (§8): `content_preview` is exactly the
first 50 characters of the content followed by `"..."` when the content
length is strictly greater than 50, and exactly the content otherwise. -/
def content_preview_spec (content : String) : String :=
  if 50 < content.length then pyTake content 50 ++ "..." else content

/-- Claim C7: the history record built by `update_history` carries exactly
the specified `content_preview`, and is the record placed at the front. -/
theorem claim_C7_content_preview (ts c pos r : String) (hist : List Zcyq.HistoryItem) :
    (Zcyq.update_history ts c pos r hist).head? = some (Zcyq.mkHistoryItem ts c pos r)
    ∧ (Zcyq.mkHistoryItem ts c pos r).content_preview = content_preview_spec c := by
  constructor
  · unfold Zcyq.update_history
    dsimp only
    split
    · show ((Zcyq.mkHistoryItem ts c pos r :: hist).take (9 + 1)).head? = _
      rw [List.take_succ_cons]
      rfl
    · rfl
  · rfl

/-- Modelled from the spec's words (§4.2): `key(content, category)` is the
hash of `content[:1000] + ":" + category`. -/
def cache_key_spec (md5hex : String → String) (content category : String) : String :=
  md5hex (pyTake content 1000 ++ ":" ++ category)

/-- Claim C8: the cache key is deterministic (identical inputs give the
identical key) and equals the hash of the first 1000 characters of the
content, a `":"` separator, and the category. -/
theorem claim_C8_cache_key (md5hex : String → String) (c₁ c₂ p₁ p₂ : String)
    (hc : c₁ = c₂) (hp : p₁ = p₂) :
    Zcyq.get_cache_key md5hex c₁ p₁ = Zcyq.get_cache_key md5hex c₂ p₂
    ∧ Zcyq.get_cache_key md5hex c₁ p₁ = cache_key_spec md5hex c₁ p₁ := by
  subst hc
  subst hp
  exact ⟨rfl, rfl⟩

theorem claim_C8_witness :
    ("abc" : String) = "abc" ∧ ("X" : String) = "X"
    ∧ Zcyq.get_cache_key idHash "abc" "X" = Zcyq.get_cache_key idHash "abc" "X"
    ∧ Zcyq.get_cache_key idHash "abc" "X" = cache_key_spec idHash "abc" "X" :=
  ⟨rfl, rfl,
   (claim_C8_cache_key idHash "abc" "abc" "X" "X" rfl rfl).1,
   (claim_C8_cache_key idHash "abc" "abc" "X" "X" rfl rfl).2⟩

/-- Claim C9 (implicit): a cached entry whose stored result is the empty
string is treated as a miss by the orchestrator even while unexpired — the
hit test is the truthiness of the stored result, not key presence — so a
fresh remote call is made and the entry is overwritten. -/
theorem claim_C9_empty_result_is_miss (md5hex : String → String) (tb : String)
    (now t : Int) (c pos api_key r : String) (cache : Zcyq.Cache)
    (hk1 : ¬ api_key = "") (hk2 : ¬ pyStrip api_key = "")
    (hmem : cache.lookup (Zcyq.get_cache_key md5hex c pos) = some ⟨"", t⟩)
    (hfresh : now - t < Zcyq.CACHE_EXPIRY_TIME) :
    Zcyq.check_cache cache now (Zcyq.get_cache_key md5hex c pos) = some ""
    ∧ Zcyq.analyze_content_with_ai md5hex (.ok r) tb now c pos api_key cache
        = ⟨.pair r false,
            Zcyq.update_cache cache now (Zcyq.get_cache_key md5hex c pos) r, true⟩
    ∧ (Zcyq.analyze_content_with_ai md5hex (.ok r) tb now c pos api_key
        cache).cache.lookup (Zcyq.get_cache_key md5hex c pos) = some ⟨r, now⟩ := by
  have hcc : Zcyq.check_cache cache now (Zcyq.get_cache_key md5hex c pos) = some "" :=
    check_cache_of_lookup _ _ _ ⟨"", t⟩ hmem hfresh
  have hmiss : pyTruthyOptStr
      (Zcyq.check_cache cache now (Zcyq.get_cache_key md5hex c pos)) = false := by
    rw [hcc]
    rfl
  have ha := analyze_miss_ok md5hex tb now c pos api_key r cache hk1 hk2 hmiss
  refine ⟨hcc, ha, ?_⟩
  rw [ha]
  exact lookup_dictInsert cache (Zcyq.get_cache_key md5hex c pos) ⟨r, now⟩

theorem claim_C9_witness :
    (¬ ("sk" : String) = "") ∧ (¬ pyStrip "sk" = "")
    ∧ ([(("cc:pp" : String), (⟨"", 0⟩ : Zcyq.CacheEntry))].lookup
        (Zcyq.get_cache_key idHash "cc" "pp") = some ⟨"", 0⟩)
    ∧ ((10 : Int) - 0 < Zcyq.CACHE_EXPIRY_TIME)
    ∧ (Zcyq.check_cache [("cc:pp", ⟨"", 0⟩)] 10 (Zcyq.get_cache_key idHash "cc" "pp")
        = some ""
      ∧ Zcyq.analyze_content_with_ai idHash (.ok "NEW") "" 10 "cc" "pp" "sk"
          [("cc:pp", ⟨"", 0⟩)]
        = ⟨.pair "NEW" false,
            Zcyq.update_cache [("cc:pp", ⟨"", 0⟩)] 10
              (Zcyq.get_cache_key idHash "cc" "pp") "NEW", true⟩
      ∧ (Zcyq.analyze_content_with_ai idHash (.ok "NEW") "" 10 "cc" "pp" "sk"
          [("cc:pp", ⟨"", 0⟩)]).cache.lookup (Zcyq.get_cache_key idHash "cc" "pp")
        = some ⟨"NEW", 10⟩) :=
  ⟨by decide, by decide, by decide, by decide,
   claim_C9_empty_result_is_miss idHash "" 10 0 "cc" "pp" "sk" "NEW"
     [("cc:pp", ⟨"", 0⟩)] (by decide) (by decide) (by decide) (by decide)⟩

/-- Claim C2: with a missing or blank API credential the orchestrator
immediately returns the configuration-error sentinel as a plain (bare) value,
makes no remote call, and leaves both the cache and the history untouched —
for every click-handler input whatsoever. -/
theorem claim_C2_config_error (md5hex : String → String)
    (jr : String → Except String String) (api : Except String String)
    (tb ts : String) (now : Int) (uploaded_file : Option FileData)
    (resume_test pos api_key content : String) (cache : Zcyq.Cache)
    (st : Zcyq.SessionState)
    (hk : api_key = "" ∨ pyStrip api_key = "") :
    Zcyq.analyze_content_with_ai md5hex api tb now content pos api_key cache
      = ⟨.bare Zcyq.sentinelConfig, cache, false⟩
    ∧ (Zcyq.handle_analyze_click md5hex jr api tb now ts uploaded_file resume_test
        pos api_key st).state.analysis_history = st.analysis_history
    ∧ (Zcyq.handle_analyze_click md5hex jr api tb now ts uploaded_file resume_test
        pos api_key st).state.cache = st.cache
    ∧ (Zcyq.handle_analyze_click md5hex jr api tb now ts uploaded_file resume_test
        pos api_key st).remote_called = false := by
  have ha : ∀ (content2 : String) (cache2 : Zcyq.Cache),
      Zcyq.analyze_content_with_ai md5hex api tb now content2 pos api_key cache2
        = ⟨.bare Zcyq.sentinelConfig, cache2, false⟩ :=
    fun content2 cache2 => analyze_config_error md5hex api tb now content2 pos api_key cache2 hk
  refine ⟨ha content cache, ?_, ?_, ?_⟩ <;>
  · unfold Zcyq.handle_analyze_click
    simp only [ha]
    repeat' split
    all_goals rfl

/-- Claim C1 (amended): when the API credential is non-blank and the cache
holds an unexpired entry with a non-empty result for the key derived from
(content, category), the click handler returns that cached result with
`from_cache = true`, makes no remote call, and performs no history update.
The credential check precedes the cache check, so with a blank credential the
configuration error wins even on a cache hit. -/
theorem claim_C1_cache_hit_requires_credential (md5hex : String → String)
    (jr : String → Except String String) (api : Except String String)
    (tb ts : String) (now : Int) (c pos api_key : String)
    (st : Zcyq.SessionState) (entry : Zcyq.CacheEntry)
    (hc : c ≠ "") (hlen : ¬ (pyStrip c).length < 10)
    (hk1 : ¬ api_key = "") (hk2 : ¬ pyStrip api_key = "")
    (hmem : st.cache.lookup (Zcyq.get_cache_key md5hex c pos) = some entry)
    (hfresh : now - entry.timestamp < Zcyq.CACHE_EXPIRY_TIME)
    (hres : entry.result ≠ "") :
    Zcyq.handle_analyze_click md5hex jr api tb now ts none c pos api_key st
      = { state := { st with
            analysis_result := some entry.result
            target_position := some pos
            last_analysis_content := some c }
          warning := none, err := none
          success_msg := some "分析完成（来自缓存）"
          remote_called := false
          content_used := some c } := by
  have ha := analyze_cache_hit md5hex api tb now c pos api_key st.cache entry
    hk1 hk2 hmem hfresh hres
  simp [Zcyq.handle_analyze_click, hc, hlen, ha, pyTruthyOptStr]

theorem claim_C1_witness :
    (("xxxxxxxxxxxx" : String) ≠ "") ∧ (¬ (pyStrip "xxxxxxxxxxxx").length < 10)
    ∧ (¬ ("sk" : String) = "") ∧ (¬ pyStrip "sk" = "")
    ∧ (({ emptyState with
          cache := [("xxxxxxxxxxxx:职业规划", ⟨"CACHED", 0⟩)] } :
            Zcyq.SessionState).cache.lookup
        (Zcyq.get_cache_key idHash "xxxxxxxxxxxx" "职业规划")
          = some ⟨"CACHED", 0⟩)
    ∧ ((100 : Int) - 0 < Zcyq.CACHE_EXPIRY_TIME) ∧ (("CACHED" : String) ≠ "")
    ∧ Zcyq.handle_analyze_click idHash jrFail (.ok "FRESH") "" 100 "2024-01-01"
        none "xxxxxxxxxxxx" "职业规划" "sk"
        { emptyState with cache := [("xxxxxxxxxxxx:职业规划", ⟨"CACHED", 0⟩)] }
      = { state := { ({ emptyState with
              cache := [("xxxxxxxxxxxx:职业规划", ⟨"CACHED", 0⟩)] } :
                Zcyq.SessionState) with
            analysis_result := some "CACHED"
            target_position := some "职业规划"
            last_analysis_content := some "xxxxxxxxxxxx" }
          warning := none, err := none
          success_msg := some "分析完成（来自缓存）"
          remote_called := false
          content_used := some "xxxxxxxxxxxx" } :=
  ⟨by decide, by decide, by decide, by decide, by decide, by decide, by decide,
   claim_C1_cache_hit_requires_credential idHash jrFail (.ok "FRESH") "" "2024-01-01"
     100 "xxxxxxxxxxxx" "职业规划" "sk"
     { emptyState with cache := [("xxxxxxxxxxxx:职业规划", ⟨"CACHED", 0⟩)] }
     ⟨"CACHED", 0⟩
     (by decide) (by decide) (by decide) (by decide) (by decide) (by decide) (by decide)⟩

/-- Claim C1 counterexample: with a blank credential but an unexpired,
non-empty cached entry for the derived key, the orchestrator does not return
the cached result with `from_cache = true` — it returns the bare
configuration-error sentinel, because the credential check runs first. -/
theorem claim_C1_counterexample :
    Zcyq.check_cache [("xxxxxxxxxxxx:职业规划", ⟨"CACHED", 0⟩)] 100
      (Zcyq.get_cache_key idHash "xxxxxxxxxxxx" "职业规划") = some "CACHED"
    ∧ (Zcyq.analyze_content_with_ai idHash (.ok "FRESH") "" 100 "xxxxxxxxxxxx"
        "职业规划" "" [("xxxxxxxxxxxx:职业规划", ⟨"CACHED", 0⟩)]).ret
      = .bare Zcyq.sentinelConfig
    ∧ ¬ (Zcyq.analyze_content_with_ai idHash (.ok "FRESH") "" 100 "xxxxxxxxxxxx"
        "职业规划" "" [("xxxxxxxxxxxx:职业规划", ⟨"CACHED", 0⟩)]).ret
      = .pair "CACHED" true := by
  decide

/-- Claim C5: when the remote completion call raises any exception, the
orchestrator catches it and returns the diagnostic string embedding the
exception message and the full traceback instead of raising; the failure
result is never stored in the cache and never added to the history. -/
theorem claim_C5_remote_failure (md5hex : String → String)
    (jr : String → Except String String) (tb ts e : String) (now : Int)
    (c pos api_key : String) (st : Zcyq.SessionState)
    (hc : c ≠ "") (hlen : ¬ (pyStrip c).length < 10)
    (hk1 : ¬ api_key = "") (hk2 : ¬ pyStrip api_key = "")
    (hmiss : pyTruthyOptStr
      (Zcyq.check_cache st.cache now (Zcyq.get_cache_key md5hex c pos)) = false) :
    Zcyq.analyze_content_with_ai md5hex (.error e) tb now c pos api_key st.cache
      = ⟨.pair ("AI分析失败: " ++ e ++ "\n\n详细错误:\n" ++ tb) false, st.cache, true⟩
    ∧ Zcyq.handle_analyze_click md5hex jr (.error e) tb now ts none c pos api_key st
      = { state := { st with
            analysis_result := some ("AI分析失败: " ++ e ++ "\n\n详细错误:\n" ++ tb)
            target_position := some pos
            last_analysis_content := some c }
          warning := none, err := none
          success_msg := some "分析完成"
          remote_called := true
          content_used := some c } := by
  have ha := analyze_miss_err md5hex tb e now c pos api_key st.cache hk1 hk2 hmiss
  have hsw := pyStartswith_failure_diag e tb
  refine ⟨ha, ?_⟩
  simp [Zcyq.handle_analyze_click, hc, hlen, ha, pyTruthyOptStr, hsw]

theorem claim_C5_witness :
    (("xxxxxxxxxxxx" : String) ≠ "") ∧ (¬ (pyStrip "xxxxxxxxxxxx").length < 10)
    ∧ (¬ ("sk" : String) = "") ∧ (¬ pyStrip "sk" = "")
    ∧ pyTruthyOptStr (Zcyq.check_cache emptyState.cache 100
        (Zcyq.get_cache_key idHash "xxxxxxxxxxxx" "职业规划")) = false
    ∧ Zcyq.analyze_content_with_ai idHash (.error "Connection error") "TB" 100
        "xxxxxxxxxxxx" "职业规划" "sk" emptyState.cache
      = ⟨.pair ("AI分析失败: " ++ "Connection error" ++ "\n\n详细错误:\n" ++ "TB") false,
          emptyState.cache, true⟩
    ∧ Zcyq.handle_analyze_click idHash jrFail (.error "Connection error") "TB" 100
        "2024-01-01" none "xxxxxxxxxxxx" "职业规划" "sk" emptyState
      = { state := { emptyState with
            analysis_result :=
              some ("AI分析失败: " ++ "Connection error" ++ "\n\n详细错误:\n" ++ "TB")
            target_position := some "职业规划"
            last_analysis_content := some "xxxxxxxxxxxx" }
          warning := none, err := none
          success_msg := some "分析完成"
          remote_called := true
          content_used := some "xxxxxxxxxxxx" } :=
  ⟨by decide, by decide, by decide, by decide, by decide,
   (claim_C5_remote_failure idHash jrFail "TB" "2024-01-01" "Connection error" 100
     "xxxxxxxxxxxx" "职业规划" "sk" emptyState
     (by decide) (by decide) (by decide) (by decide) (by decide)).1,
   (claim_C5_remote_failure idHash jrFail "TB" "2024-01-01" "Connection error" 100
     "xxxxxxxxxxxx" "职业规划" "sk" emptyState
     (by decide) (by decide) (by decide) (by decide) (by decide)).2⟩

/-- Claim C6 (amended): for a file declared as JSON (MIME `application/json`
or name ending `.json`, and not caught by the earlier text branch) whose
decoded bytes fail to parse as JSON, extraction does not abort: the enclosing
exception handler returns the parse-failure message embedded in the content
(`"文件解析错误: " + message`) with the error label `"错误"`; it does not take
the generic best-effort decode path.  On parse success it returns the
pretty-printed re-serialization labeled `"JSON文件"`. -/
theorem claim_C6_json_parse_failure (jr : String → Except String String)
    (f : FileData) (s : String)
    (hnottxt : ¬ (f.ftype = "text/plain" ∨ pyEndswith f.name ".txt" = true))
    (hjson : f.ftype = "application/json" ∨ pyEndswith f.name ".json" = true)
    (hdec : f.decodeUtf8 = .ok s) :
    (∀ msg, jr s = .error msg →
      Zcyq.extract_file_content jr (some f)
        = (some ("文件解析错误: " ++ msg), some "错误"))
    ∧ (∀ pretty, jr s = .ok pretty →
      Zcyq.extract_file_content jr (some f) = (some pretty, some "JSON文件")) := by
  have h1 : Zcyq.extract_file_content jr (some f)
      = match jr s with
        | .ok pretty => (some pretty, some "JSON文件")
        | .error e => (some ("文件解析错误: " ++ e), some "错误") := by
    simp only [Zcyq.extract_file_content]
    rw [if_neg hnottxt, if_pos hjson, hdec]
  constructor
  · intro msg hjr
    rw [h1, hjr]
  · intro pretty hjr
    rw [h1, hjr]

theorem claim_C6_witness :
    (¬ (badJsonFile.ftype = "text/plain" ∨ pyEndswith badJsonFile.name ".txt" = true))
    ∧ (badJsonFile.ftype = "application/json" ∨ pyEndswith badJsonFile.name ".json" = true)
    ∧ badJsonFile.decodeUtf8 = .ok "not json"
    ∧ jrFail "not json" = .error "Expecting value: line 1 column 1 (char 0)"
    ∧ Zcyq.extract_file_content jrFail (some badJsonFile)
      = (some ("文件解析错误: " ++ "Expecting value: line 1 column 1 (char 0)"), some "错误")
    ∧ jrOk "not json" = .ok ("PRETTY:" ++ "not json")
    ∧ Zcyq.extract_file_content jrOk (some badJsonFile)
      = (some ("PRETTY:" ++ "not json"), some "JSON文件") :=
  ⟨by decide, by decide, by decide, by decide,
   (claim_C6_json_parse_failure jrFail badJsonFile "not json"
     (by decide) (by decide) (by decide)).1
     "Expecting value: line 1 column 1 (char 0)" (by decide),
   by decide,
   (claim_C6_json_parse_failure jrOk badJsonFile "not json"
     (by decide) (by decide) (by decide)).2 ("PRETTY:" ++ "not json") (by decide)⟩

/-- Claim C6 counterexample: on a declared-JSON file whose bytes fail to
parse, the code does not fall through to the generic decode path (best-effort
decode of the raw bytes under the label `"未知格式（已尝试文本解析）"`): it
returns the exception handler's error message under the label `"错误"`. -/
theorem claim_C6_counterexample :
    Zcyq.extract_file_content jrFail (some badJsonFile)
      = (some "文件解析错误: Expecting value: line 1 column 1 (char 0)", some "错误")
    ∧ ¬ Zcyq.extract_file_content jrFail (some badJsonFile)
      = (some badJsonFile.decodeReplace, some "未知格式（已尝试文本解析）") := by
  decide

/-- Claim C10: in both variants, when an uploaded file and non-empty pasted
text are supplied together, the uploaded file's extracted content is the
analysis content and the pasted text is ignored (the whole click-handler
outcome is independent of the pasted text). -/
theorem claim_C10_file_precedence (md5hex : String → String)
    (jr : String → Except String String) (api : Except String String)
    (tb ts : String) (now : Int) (f : FileData) (t t' pos api_key : String)
    (st : Zcyq.SessionState)
    (ht : t ≠ "") :
    Agent2.get_resume_content (some f) t = Agent2.extract_file_content (some f)
    ∧ Zcyq.handle_analyze_click md5hex jr api tb now ts (some f) t pos api_key st
      = Zcyq.handle_analyze_click md5hex jr api tb now ts (some f) t' pos api_key st
    ∧ (Zcyq.handle_analyze_click md5hex jr api tb now ts (some f) t pos api_key
        st).content_used = (Zcyq.extract_file_content jr (some f)).1 := by
  refine ⟨rfl, rfl, ?_⟩
  unfold Zcyq.handle_analyze_click
  dsimp only
  repeat' split
  all_goals rfl

/-- A plain-text upload used in the C10 witness. -/
def txtFile : FileData :=
  { ftype := "text/plain", name := "resume.txt"
    decodeUtf8 := .ok "HELLO RESUME CONTENT", decodeReplace := "HELLO RESUME CONTENT" }

theorem claim_C10_witness :
    (("pasted text" : String) ≠ "")
    ∧ Agent2.get_resume_content (some txtFile) "pasted text"
      = Agent2.extract_file_content (some txtFile)
    ∧ Zcyq.handle_analyze_click idHash jrFail (.ok "FRESH") "" 100 "2024-01-01"
        (some txtFile) "pasted text" "职业规划" "sk" emptyState
      = Zcyq.handle_analyze_click idHash jrFail (.ok "FRESH") "" 100 "2024-01-01"
        (some txtFile) "" "职业规划" "sk" emptyState
    ∧ (Zcyq.handle_analyze_click idHash jrFail (.ok "FRESH") "" 100 "2024-01-01"
        (some txtFile) "pasted text" "职业规划" "sk" emptyState).content_used
      = (Zcyq.extract_file_content jrFail (some txtFile)).1 :=
  ⟨by decide,
   (claim_C10_file_precedence idHash jrFail (.ok "FRESH") "" "2024-01-01" 100 txtFile
     "pasted text" "" "职业规划" "sk" emptyState (by decide)).1,
   (claim_C10_file_precedence idHash jrFail (.ok "FRESH") "" "2024-01-01" 100 txtFile
     "pasted text" "" "职业规划" "sk" emptyState (by decide)).2.1,
   (claim_C10_file_precedence idHash jrFail (.ok "FRESH") "" "2024-01-01" 100 txtFile
     "pasted text" "" "职业规划" "sk" emptyState (by decide)).2.2⟩

/-- A session state with one history record and one cache entry, used in the
C2 witness to show neither is mutated. -/
def busyState : Zcyq.SessionState :=
  { analysis_result := none, target_position := none, last_analysis_content := none
    analysis_history := [Zcyq.mkHistoryItem "t0" "c0" "p0" "r0"]
    cache := [("k0", ⟨"v0", 0⟩)] }

theorem claim_C2_witness :
    (("" : String) = "" ∨ pyStrip "" = "")
    ∧ (Zcyq.analyze_content_with_ai idHash (.ok "FRESH") "" 100 "xxxxxxxxxxxx"
        "职业规划" "" busyState.cache
      = ⟨.bare Zcyq.sentinelConfig, busyState.cache, false⟩
    ∧ (Zcyq.handle_analyze_click idHash jrFail (.ok "FRESH") "" 100 "2024-01-01"
        none "xxxxxxxxxxxx" "职业规划" "" busyState).state.analysis_history
      = busyState.analysis_history
    ∧ (Zcyq.handle_analyze_click idHash jrFail (.ok "FRESH") "" 100 "2024-01-01"
        none "xxxxxxxxxxxx" "职业规划" "" busyState).state.cache = busyState.cache
    ∧ (Zcyq.handle_analyze_click idHash jrFail (.ok "FRESH") "" 100 "2024-01-01"
        none "xxxxxxxxxxxx" "职业规划" "" busyState).remote_called = false) :=
  ⟨by decide,
   claim_C2_config_error idHash jrFail (.ok "FRESH") "" "2024-01-01" 100 none
     "xxxxxxxxxxxx" "职业规划" "" "xxxxxxxxxxxx" busyState.cache busyState (by decide)⟩
